import Mathlib

/-!
Verification of `senlin/engine/scheduler.py`: the action execution scheduler.

The Python module is embedded shallowly:

* wall-clock timestamps are modelled as `Int` (only ordering and subtraction
  of timestamps matter to the scheduler);
* action ids, engine ids and green-thread handles are opaque and modelled
  as `Nat`;
* the external store (`db_api`) is modelled by passing its observable state
  (lock results, the pending control flag) as explicit arguments, and by
  recording the writes the scheduler performs as an explicit `Event` trace;
* the cooperative loops (`ActionProc`'s retry loop, `action_wait`,
  `ThreadGroupManager.stop`'s marker loop) are embedded with explicit fuel,
  returning `none`/`Option.none` when the fuel runs out, so that every
  definition is executable.
-/

namespace Scheduler

/-- Outcome codes an action's `execute()` step may return
(`action.RES_OK` etc. in the Python source). -/
inductive ActionResult
  | RES_OK
  | RES_ERROR
  | RES_RETRY
  | RES_CANCEL
  | RES_TIMEOUT
deriving DecidableEq, Repr

/-- The values of `ACTION_CONTROL_REQUEST` in the source:
`('cancel', 'suspend', 'resume', 'timeout')`. -/
inductive ControlReq
  | cancel
  | suspend
  | resume
  | timeout
deriving DecidableEq, Repr

/-- A control flag value that the store can actually hold: the entry points
`cancel_action` / `suspend_action` / `resume_action` only ever write
`cancel`, `suspend` or `resume`; `timeout` is synthesised by
`action_control_flag`, never stored. -/
inductive StoreFlag
  | cancel
  | suspend
  | resume
deriving DecidableEq, Repr

/-- Injection of a stored flag into the control-request alphabet. -/
def StoreFlag.toReq : StoreFlag → ControlReq
  | .cancel => ControlReq.cancel
  | .suspend => ControlReq.suspend
  | .resume => ControlReq.resume

/-- Observable side effects of the scheduler: step invocations, cooperative
sleeps, and the writes it performs against the store (`db_api`). -/
inductive Event
  | execute
  | sleep (t : Nat)
  | acquire (aid eid : Nat) (ts : Int)
  | release (aid eid : Nat)
  | spawn (aid : Nat)
  | mark_failed (aid : Nat) (ts : Int)
  | mark_succeeded (aid : Nat) (ts : Int)
  | mark_cancelled (aid : Nat) (ts : Int)
deriving DecidableEq, Repr

/-- True exactly on the three terminal status writes
(`action_mark_failed` / `action_mark_succeeded` / `action_mark_cancelled`). -/
def isStatusWrite : Event → Bool
  | .mark_failed _ _ => true
  | .mark_succeeded _ _ => true
  | .mark_cancelled _ _ => true
  | _ => false

/-- True exactly on the task-spawn event (`tgm.start_action_thread`). -/
def isSpawn : Event → Bool
  | .spawn _ => true
  | _ => false

/-- The retry loop of `ActionProc`:

```
result = action.execute()
while result == action.RES_RETRY:
    result = action.execute()
```

The opaque `execute()` capability is modelled as the list of results it
returns on successive invocations.  The loop returns the first non-`RETRY`
result together with the number of `execute()` invocations performed, or
`none` when the list is exhausted while still retrying (the source loop is
unbounded; the list length plays the role of fuel).  Note: the loop body
performs no sleep and never consults `wait_time`. -/
def runRetryLoop : List ActionResult → Option (ActionResult × Nat)
  | [] => none
  | r :: rest =>
    if r = ActionResult.RES_RETRY then
      (runRetryLoop rest).map (fun p => (p.1, p.2 + 1))
    else
      some (r, 1)

/-- `ActionProc(context, action, wait_time=1)`: run the retry loop, then take
one `wallclock()` timestamp (`now`) and dispatch on the final result:
`RES_ERROR` → `action_mark_failed`, `RES_OK` → `action_mark_succeeded`,
`RES_CANCEL` → `action_mark_cancelled`, else (the `RES_TIMEOUT` branch of the
source's trailing `else`) → no status write.  The returned trace records one
`Event.execute` per step invocation followed by the status write, if any.
The `wait_time` parameter is accepted, as in the source, but the body never
uses it — the source contains no `reschedule` call inside the loop. -/
def ActionProc (aid : Nat) (steps : List ActionResult) (wait_time : Option Nat)
    (now : Int) : Option (List Event) :=
  match runRetryLoop steps with
  | none => none
  | some (r, n) =>
    let execs := List.replicate n Event.execute
    if r = ActionResult.RES_ERROR then
      some (execs ++ [Event.mark_failed aid now])
    else if r = ActionResult.RES_OK then
      some (execs ++ [Event.mark_succeeded aid now])
    else if r = ActionResult.RES_CANCEL then
      some (execs ++ [Event.mark_cancelled aid now])
    else
      some execs

/-- The outcome mapping exactly as the specification states it:
OK → SUCCEEDED, ERROR → FAILED, CANCEL → CANCELLED, TIMEOUT → no status
write.  Stated from the spec's words, to be compared with `ActionProc`. -/
def specOutcome (r : ActionResult) (aid : Nat) (now : Int) : List Event :=
  match r with
  | .RES_OK => [Event.mark_succeeded aid now]
  | .RES_ERROR => [Event.mark_failed aid now]
  | .RES_CANCEL => [Event.mark_cancelled aid now]
  | _ => []

/-- `start_action(context, action_id, engine_id, tgm)`.  The store's response
to `action_acquire` and the truthiness of the handle returned by
`tgm.start_action_thread` are passed in as `acquire_ok` / `spawn_ok`.  The
first component models the Python return value: `some true` for
`return True`, `some false` for `return False`, and `none` for the
spawn-failure branch, which releases the lock and then falls off the end of
the function (Python returns `None` there).  The second component is the
trace of store calls and the spawn attempt, in order. -/
def start_action (aid eid : Nat) (now : Int) (acquire_ok spawn_ok : Bool) :
    Option Bool × List Event :=
  if acquire_ok then
    if spawn_ok then
      (some true, [Event.acquire aid eid now, Event.spawn aid])
    else
      (none, [Event.acquire aid eid now, Event.spawn aid, Event.release aid eid])
  else
    (some false, [Event.acquire aid eid now])

theorem runRetryLoop_replicate (k : Nat) (r : ActionResult)
    (rest : List ActionResult) (hr : r ≠ ActionResult.RES_RETRY) :
    runRetryLoop (List.replicate k ActionResult.RES_RETRY ++ r :: rest) =
      some (r, k + 1) := by
  induction k with
  | zero => simp [runRetryLoop, hr]
  | succ k ih => simp [List.replicate_succ, runRetryLoop, ih]

/-- C1: for any number `k` of leading RETRY outcomes followed by a first
non-RETRY outcome `r`, `ActionProc` invokes the step exactly `k + 1` times
and then performs exactly the status write the spec's mapping prescribes
for `r` (OK → SUCCEEDED, ERROR → FAILED, CANCEL → CANCELLED, TIMEOUT → no
write), stamping it with the current timestamp `now`. -/
theorem C1_runner_outcome_mapping (aid : Nat) (now : Int) (w : Option Nat)
    (k : Nat) (r : ActionResult) (rest : List ActionResult)
    (hr : r ≠ ActionResult.RES_RETRY) :
    ActionProc aid (List.replicate k ActionResult.RES_RETRY ++ r :: rest) w now =
      some (List.replicate (k + 1) Event.execute ++ specOutcome r aid now) := by
  unfold ActionProc
  rw [runRetryLoop_replicate k r rest hr]
  cases r with
  | RES_OK => simp [specOutcome]
  | RES_ERROR => simp [specOutcome]
  | RES_RETRY => exact absurd rfl hr
  | RES_CANCEL => simp [specOutcome]
  | RES_TIMEOUT => simp [specOutcome]

/-- Witness for C1 at a concrete input: two RETRY outcomes followed by OK
lead to three step invocations and a SUCCEEDED write stamped `5`. -/
theorem C1_runner_outcome_mapping_witness :
    ActionProc 7 (List.replicate 2 ActionResult.RES_RETRY ++
        ActionResult.RES_OK :: []) (some 1) 5 =
      some (List.replicate 3 Event.execute ++ specOutcome ActionResult.RES_OK 7 5) :=
  C1_runner_outcome_mapping 7 5 (some 1) 2 ActionResult.RES_OK [] (by decide)

/-- C2: at the failing input — a step that returns RETRY once and then OK,
with `wait_time = 1` — the trace of `ActionProc` is two immediate step
invocations followed by the status write: it contains no `sleep` event at
all, although the function's own docstring promises a sleep of `wait_time`
seconds between steps. -/
theorem C2_retry_loop_never_sleeps :
    ActionProc 1 [ActionResult.RES_RETRY, ActionResult.RES_OK] (some 1) 0 =
      some [Event.execute, Event.execute, Event.mark_succeeded 1 0] := by
  decide

/-- C3 counterexample: with the lock acquired and the spawn failing, the
value surfaced by `start_action` is Python `None` (modelled `none`), not the
boolean `False` (`some false`) the claim states. -/
theorem C3_spawn_failure_counterexample :
    (start_action 1 2 0 true false).1 ≠ some false := by
  decide

/-- C3 amended: when the acquire succeeds and the spawn fails, the lock is
released — `action_release` with the same action id and engine id, as the
last event before returning — and the surfaced result is not `True`: it is
Python `None` (falsy), because the spawn-failure branch falls off the end
of the function without an explicit return. -/
theorem C3_spawn_failure_releases_lock (aid eid : Nat) (now : Int) :
    start_action aid eid now true false =
      (none, [Event.acquire aid eid now, Event.spawn aid,
              Event.release aid eid]) := by
  simp [start_action]

/-- C4: when the acquire fails, `start_action` returns the boolean `False`,
its trace is the single failed acquire — no task is spawned and no status
write occurs. -/
theorem C4_acquire_failure_no_spawn (aid eid : Nat) (now : Int)
    (spawn_ok : Bool) :
    start_action aid eid now false spawn_ok =
      (some false, [Event.acquire aid eid now]) ∧
    (start_action aid eid now false spawn_ok).2.countP isSpawn = 0 ∧
    (start_action aid eid now false spawn_ok).2.countP isStatusWrite = 0 := by
  refine ⟨by simp [start_action], ?_, ?_⟩ <;>
    simp [start_action, List.countP, List.countP.go, isSpawn, isStatusWrite]

/-- The fields of an `Action` entity that the scheduler reads:
`action.id`, `action.start_time` (a wallclock timestamp) and
`action.timeout` (an optional duration; Python `None` when unset). -/
structure Action where
  id : Nat
  start_time : Int
  timeout : Option Int
deriving DecidableEq, Repr

/-- The runtime error raised by Python 3 when a number is compared
against `None`. -/
inductive PyErr
  | typeError
deriving DecidableEq, Repr

/-- True on `.ok` results, false on `.error`. -/
def exceptOk {ε α : Type} : Except ε α → Bool
  | .ok _ => true
  | .error _ => false

/-- `action_timeout(action)`: computes `time_lapse = wallclock() -
action.start_time` and returns `time_lapse > action.timeout`.  The
comparison has no guard: with `action.timeout` set to `None`, comparing a
number against `None` raises `TypeError` (Python 3 semantics), modelled as
`Except.error`. -/
def action_timeout (now : Int) (a : Action) : Except PyErr Bool :=
  match a.timeout with
  | none => Except.error PyErr.typeError
  | some t => Except.ok (decide (now - a.start_time > t))

/-- `action_control_flag(action)`: first evaluates
`action.timeout is not None and action_timeout(action)`; if that is true it
returns `ACTION_TIMEOUT` without touching the store; otherwise it returns
the result of `db_api.action_control_check` (the pending stored flag, or
`None`).  The store's pending flag is passed in as `stored`; the second
component of the result records whether `action_control_check` was
invoked. -/
def action_control_flag (now : Int) (a : Action) (stored : Option StoreFlag) :
    Except PyErr (Option ControlReq × Bool) :=
  match a.timeout with
  | none => Except.ok (stored.map StoreFlag.toReq, true)
  | some _ =>
    match action_timeout now a with
    | .error e => Except.error e
    | .ok true => Except.ok (some ControlReq.timeout, false)
    | .ok false => Except.ok (stored.map StoreFlag.toReq, true)

/-- `action_cancelled(action)`: true iff the control flag equals
`ACTION_CANCEL`. -/
def action_cancelled (now : Int) (a : Action) (stored : Option StoreFlag) :
    Except PyErr Bool :=
  match action_control_flag now a stored with
  | .error e => Except.error e
  | .ok (r, _) => Except.ok (decide (r = some ControlReq.cancel))

/-- `action_suspended(action)`: true iff the control flag equals
`ACTION_SUSPEND`. -/
def action_suspended (now : Int) (a : Action) (stored : Option StoreFlag) :
    Except PyErr Bool :=
  match action_control_flag now a stored with
  | .error e => Except.error e
  | .ok (r, _) => Except.ok (decide (r = some ControlReq.suspend))

/-- `action_resumed(action)`: true iff the control flag equals
`ACTION_RESUME`. -/
def action_resumed (now : Int) (a : Action) (stored : Option StoreFlag) :
    Except PyErr Bool :=
  match action_control_flag now a stored with
  | .error e => Except.error e
  | .ok (r, _) => Except.ok (decide (r = some ControlReq.resume))

/-- C5: for an action with a timeout set, if the elapsed wall time strictly
exceeds the timeout then `action_control_flag` reports `timeout` without
reading the stored flag — whatever flag (cancel, suspend, resume or none)
is pending; and when the timeout check is false, it returns exactly the
stored flag and does read the store. -/
theorem C5_timeout_precedence (now : Int) (a : Action)
    (stored : Option StoreFlag) (t : Int) (ht : a.timeout = some t) :
    (now - a.start_time > t →
      action_control_flag now a stored =
        Except.ok (some ControlReq.timeout, false)) ∧
    (¬ now - a.start_time > t →
      action_control_flag now a stored =
        Except.ok (stored.map StoreFlag.toReq, true)) := by
  constructor
  · intro hgt
    simp [action_control_flag, action_timeout, ht, hgt]
  · intro hle
    simp [action_control_flag, action_timeout, ht, hle]

/-- Witness for C5: an action started at time `0` with timeout `5`, checked
at time `10` with a cancel flag pending, is reported as timed out and the
store is not consulted. -/
theorem C5_timeout_precedence_witness :
    action_control_flag 10 (Action.mk 1 0 (some 5)) (some StoreFlag.cancel) =
      Except.ok (some ControlReq.timeout, false) :=
  (C5_timeout_precedence 10 (Action.mk 1 0 (some 5))
    (some StoreFlag.cancel) 5 rfl).1 (by decide)

/-- C10: `action_timeout` is partial — on an action whose `timeout` is
`None` it raises `TypeError` instead of returning false — while
`action_control_flag` is total: its `timeout is not None` conjunct guards
the `action_timeout` call, so for every action and store state it returns
normally and the error branch is unreachable. -/
theorem C10_action_timeout_partial (now nowp : Int) (a ap : Action)
    (stored : Option StoreFlag) (h : a.timeout = none) :
    action_timeout now a = Except.error PyErr.typeError ∧
    exceptOk (action_control_flag nowp ap stored) = true := by
  constructor
  · simp [action_timeout, h]
  · cases hap : ap.timeout with
    | none => simp [action_control_flag, hap, exceptOk]
    | some t =>
      simp only [action_control_flag, hap, action_timeout]
      by_cases hgt : nowp - ap.start_time > t <;> simp [hgt, exceptOk]

/-- Witness for C10: an action with no timeout makes a direct
`action_timeout` call raise, while `action_control_flag` on another action
(timeout `5`, cancel pending) returns normally. -/
theorem C10_action_timeout_partial_witness :
    action_timeout 5 (Action.mk 1 0 none) = Except.error PyErr.typeError ∧
    exceptOk (action_control_flag 3 (Action.mk 2 0 (some 5))
      (some StoreFlag.cancel)) = true :=
  C10_action_timeout_partial 5 3 (Action.mk 1 0 none) (Action.mk 2 0 (some 5))
    (some StoreFlag.cancel) rfl

/-- `reschedule(action, sleep_time=1)`: sleep for `sleep_time` seconds via
`eventlet.sleep`, or do nothing when `sleep_time` is `None`.  The result is
the list of sleep durations performed. -/
def reschedule (sleep_time : Option Nat) : List Nat :=
  match sleep_time with
  | none => []
  | some t => [t]

/-- The loop of `action_wait(action)`:

```
while not action_resumed(action):
    reschedule(action, sleep_time=1)
```

The environment `env` gives, for the `i`-th check of the loop, the current
wallclock time and the flag pending in the store at that moment.  `i` is
the index of the current check and `fuel` bounds the number of remaining
checks (the source loop is unbounded).  The result is `.ok none` when the
fuel runs out, `.ok (some (k, sleeps))` when the loop exits at check `k`
having performed the sleeps in `sleeps` (one `reschedule` with
`sleep_time=1` per failed check), and `.error` if `action_resumed` raised. -/
def action_wait_aux (a : Action) (env : Nat → Int × Option StoreFlag) :
    Nat → Nat → Except PyErr (Option (Nat × List Nat))
  | _, 0 => Except.ok none
  | i, fuel + 1 =>
    match action_resumed (env i).1 a (env i).2 with
    | .error e => Except.error e
    | .ok true => Except.ok (some (i, []))
    | .ok false =>
      match action_wait_aux a env (i + 1) fuel with
      | .error e => Except.error e
      | .ok none => Except.ok none
      | .ok (some (k, s)) => Except.ok (some (k, reschedule (some 1) ++ s))

/-- `action_wait(action)`: loop from the first check with the given fuel. -/
def action_wait (a : Action) (env : Nat → Int × Option StoreFlag)
    (fuel : Nat) : Except PyErr (Option (Nat × List Nat)) :=
  action_wait_aux a env 0 fuel

theorem action_wait_aux_spec (a : Action) (env : Nat → Int × Option StoreFlag) :
    ∀ (fuel i k : Nat) (s : List Nat),
      action_wait_aux a env i fuel = Except.ok (some (k, s)) →
      i ≤ k ∧
      action_resumed (env k).1 a (env k).2 = Except.ok true ∧
      (∀ j, i ≤ j → j < k → action_resumed (env j).1 a (env j).2 =
        Except.ok false) ∧
      s = List.replicate (k - i) 1 := by
  intro fuel
  induction fuel with
  | zero => intro i k s h; simp [action_wait_aux] at h
  | succ fuel ih =>
    intro i k s h
    unfold action_wait_aux at h
    cases hres : action_resumed (env i).1 a (env i).2 with
    | error e => rw [hres] at h; exact absurd h (by simp)
    | ok b =>
      rw [hres] at h
      cases b with
      | true =>
        simp only [Except.ok.injEq, Option.some.injEq, Prod.mk.injEq] at h
        obtain ⟨hk, hs⟩ := h
        subst hk; subst hs
        exact ⟨le_refl i, hres, fun j hij hji => absurd hij (not_le.mpr hji),
          by simp⟩
      | false =>
        cases hrec : action_wait_aux a env (i + 1) fuel with
        | error e => rw [hrec] at h; exact absurd h (by simp)
        | ok o =>
          rw [hrec] at h
          cases o with
          | none => exact absurd h (by simp)
          | some p =>
            obtain ⟨kp, sp⟩ := p
            simp only [Except.ok.injEq, Option.some.injEq, Prod.mk.injEq] at h
            obtain ⟨hk, hs⟩ := h
            obtain ⟨hik, hresk, hbefore, hsp⟩ := ih (i + 1) kp sp hrec
            rw [← hk, ← hs]
            refine ⟨by omega, hresk, ?_, ?_⟩
            · intro j hij hjk
              rcases Nat.eq_or_lt_of_le hij with heq | hlt
              · subst heq; exact hres
              · exact hbefore j hlt hjk
            · subst hsp
              have hki : kp - i = (kp - (i + 1)) + 1 := by omega
              simp [reschedule, hki, List.replicate_succ]

/-- C6: whenever `action_wait` returns (exits at check `k`), the control
flag channel reported `resume` at that check, at every earlier check it did
not report `resume` — however many suspend or cancel flags were pending in
between — and the loop slept exactly once per failed check, 1 time unit
each (`reschedule` with `sleep_time=1`). -/
theorem C6_wait_returns_on_resume (a : Action)
    (env : Nat → Int × Option StoreFlag) (fuel k : Nat) (s : List Nat)
    (h : action_wait a env fuel = Except.ok (some (k, s))) :
    action_resumed (env k).1 a (env k).2 = Except.ok true ∧
    (∀ j, j < k → action_resumed (env j).1 a (env j).2 = Except.ok false) ∧
    s = List.replicate k 1 := by
  obtain ⟨_, hres, hbefore, hs⟩ := action_wait_aux_spec a env fuel 0 k s h
  exact ⟨hres, fun j hj => hbefore j (Nat.zero_le j) hj, by simpa using hs⟩

/-- Concrete environment for the C6 witness: suspend pending at check 0,
cancel at check 1, resume from check 2 on; the action has no timeout. -/
def envW : Nat → Int × Option StoreFlag :=
  fun i =>
    if i = 0 then (0, some StoreFlag.suspend)
    else if i = 1 then (1, some StoreFlag.cancel)
    else (2, some StoreFlag.resume)

/-- Witness for C6: under `envW` the loop exits at check 2 after two 1-unit
sleeps, and the flag at check 2 is indeed `resume`. -/
theorem C6_wait_returns_on_resume_witness :
    action_resumed (envW 2).1 (Action.mk 1 0 none) (envW 2).2 =
      Except.ok true :=
  (C6_wait_returns_on_resume (Action.mk 1 0 none) envW 5 2 [1, 1] rfl).1

/-- The running-task map `self.threads` of `ThreadGroupManager`: action id
to green-thread handle, modelled as an association list. -/
abbrev ThreadMap := List (Nat × Nat)

/-- The two map-mutating paths of the manager.  `spawn aid th` is
`start_action_thread`'s `self.threads[action.id] = th`; `complete aid` is
the firing of the completion callback registered with `th.link(release)`,
whose body is `self.threads.pop(action.id)`.  Both run on the single
cooperative context, so a trace of these events is the whole history of
the map. -/
inductive TgEvent
  | spawn (aid th : Nat)
  | complete (aid : Nat)
deriving DecidableEq, Repr

/-- Apply one event to the map: dictionary assignment replaces any entry
under the same key; `pop` removes the key.  (In the actual traces a
`complete aid` always follows a `spawn aid`, so the `pop` finds its key;
removal of an absent key leaves the list unchanged here.) -/
def tgStep (m : ThreadMap) : TgEvent → ThreadMap
  | .spawn aid th => (aid, th) :: m.filter (fun p => p.1 != aid)
  | .complete aid => m.filter (fun p => p.1 != aid)

/-- Run a trace of spawn/completion events from the empty map. -/
def tgRun (evs : List TgEvent) : ThreadMap :=
  evs.foldl tgStep []

/-- Dictionary lookup in the running-task map. -/
def tgLookup (m : ThreadMap) (aid : Nat) : Option Nat :=
  (m.find? (fun p => p.1 == aid)).map (fun p => p.2)

/-- True when the trace contains no spawn for `aid`. -/
def noSpawnOf (aid : Nat) (evs : List TgEvent) : Bool :=
  evs.all (fun e =>
    match e with
    | .spawn a _ => a != aid
    | .complete _ => true)

theorem tgLookup_eq_none_iff (m : ThreadMap) (aid : Nat) :
    tgLookup m aid = none ↔ ∀ p ∈ m, p.1 ≠ aid := by
  simp [tgLookup, List.find?_eq_none]

theorem tgStep_keys_nodup (m : ThreadMap) (e : TgEvent)
    (hm : (m.map Prod.fst).Nodup) : ((tgStep m e).map Prod.fst).Nodup := by
  cases e with
  | spawn aid th =>
    simp only [tgStep, List.map_cons, List.nodup_cons]
    constructor
    · intro hmem
      simp only [List.mem_map, List.mem_filter, bne_iff_ne] at hmem
      obtain ⟨p, ⟨hpm, hne⟩, hfst⟩ := hmem
      exact hne hfst
    · exact List.Nodup.sublist
        ((List.filter_sublist m).map Prod.fst) hm
  | complete aid =>
    exact List.Nodup.sublist
      ((List.filter_sublist m).map Prod.fst) hm

theorem tgRun_keys_nodup (evs : List TgEvent) :
    ((tgRun evs).map Prod.fst).Nodup := by
  suffices h : ∀ (m : ThreadMap), (m.map Prod.fst).Nodup →
      ((evs.foldl tgStep m).map Prod.fst).Nodup by
    exact h [] (by simp)
  induction evs with
  | nil => intro m hm; simpa using hm
  | cons e evs ih =>
    intro m hm
    exact ih (tgStep m e) (tgStep_keys_nodup m e hm)

theorem tgStep_absent (m : ThreadMap) (e : TgEvent) (aid : Nat)
    (he : ∀ th, e ≠ TgEvent.spawn aid th)
    (hm : ∀ p ∈ m, p.1 ≠ aid) : ∀ p ∈ tgStep m e, p.1 ≠ aid := by
  cases e with
  | spawn a th =>
    intro p hp
    simp only [tgStep, List.mem_cons] at hp
    rcases hp with rfl | hp
    · intro hcontra
      have ha : a = aid := hcontra
      exact he th (by rw [ha])
    · exact hm p (List.mem_of_mem_filter hp)
  | complete a =>
    intro p hp
    exact hm p (List.mem_of_mem_filter hp)

theorem tgStep_complete_absent (m : ThreadMap) (aid : Nat) :
    ∀ p ∈ tgStep m (TgEvent.complete aid), p.1 ≠ aid := by
  intro p hp
  have hfilter := List.of_mem_filter hp
  simpa using hfilter

theorem tgRun_absent_of_noSpawn (m : ThreadMap) (evs : List TgEvent)
    (aid : Nat) (hev : noSpawnOf aid evs = true)
    (hm : ∀ p ∈ m, p.1 ≠ aid) :
    ∀ p ∈ evs.foldl tgStep m, p.1 ≠ aid := by
  induction evs generalizing m with
  | nil => simpa using hm
  | cons e evs ih =>
    simp only [noSpawnOf, List.all_cons, Bool.and_eq_true] at hev
    obtain ⟨he, hevs⟩ := hev
    refine ih (tgStep m e) hevs (tgStep_absent m e aid ?_ hm)
    intro th hcontra
    subst hcontra
    simp at he

/-- C7: invariant of the running-task map.  First, for every event trace
the map holds at most one entry per action id (its key list has no
duplicates).  Second, once the completion callback for `aid` has fired
(`complete aid`), as long as no later spawn re-adds `aid`, the map has no
entry for `aid`: a fully completed action whose callback ran is never in
the map. -/
theorem C7_thread_map_invariant (evs pre post : List TgEvent) (aid : Nat)
    (hpost : noSpawnOf aid post = true) :
    ((tgRun evs).map Prod.fst).Nodup ∧
    tgLookup (tgRun (pre ++ TgEvent.complete aid :: post)) aid = none := by
  refine ⟨tgRun_keys_nodup evs, ?_⟩
  rw [tgRun, List.foldl_append, List.foldl_cons, tgLookup_eq_none_iff]
  exact tgRun_absent_of_noSpawn _ post aid hpost
    (tgStep_complete_absent (pre.foldl tgStep []) aid)

/-- Witness for C7: a trace spawning actions 1 and 2 and completing 1 has
nodup keys, and after `complete 1` with only action 2 touched afterwards,
action 1 is absent from the map. -/
theorem C7_thread_map_invariant_witness :
    ((tgRun [TgEvent.spawn 1 10, TgEvent.spawn 2 20,
        TgEvent.complete 1]).map Prod.fst).Nodup ∧
    tgLookup (tgRun ([TgEvent.spawn 1 10] ++ TgEvent.complete 1 ::
        [TgEvent.spawn 2 20])) 1 = none :=
  C7_thread_map_invariant [TgEvent.spawn 1 10, TgEvent.spawn 2 20,
    TgEvent.complete 1] [TgEvent.spawn 1 10] [TgEvent.spawn 2 20] 1 rfl

/-- Modelled from the spec: a green thread of the thread group
(`senlin.openstack.common.threadgroup`, whose source is not under `src/`)
as `ThreadGroupManager.stop` sees it after `group.stop(graceful)` and
`group.wait()` have been called and after `stop` has linked its own
`mark_done` marker.  Callbacks registered with `link()` run after the
thread exits, in registration order; so `callbacks` counts the completion
callbacks registered before the marker (e.g. the lock-release /
map-removal link), the marker is callback number `callbacks + 1`, `ran` is
how many of those `callbacks + 1` callbacks have executed so far (a prefix,
by the ordering guarantee), and `exited` says whether the thread has
exited (callbacks only ever run after exit). -/
structure GreenThread where
  callbacks : Nat
  ran : Nat
  exited : Bool
deriving DecidableEq, Repr

/-- Well-formedness of a thread under the collaborator contract: no more
callbacks have run than are registered (marker included), and a thread
none of whose callbacks ran may be unexited, but once any callback ran the
thread has exited. -/
def GreenThread.wf (th : GreenThread) : Prop :=
  th.ran ≤ th.callbacks + 1 ∧ (0 < th.ran → th.exited = true)

/-- `all(links_done.values())` of `ThreadGroupManager.stop`: the marker is
the last registered callback of each thread, so it has run exactly when
all `callbacks + 1` callbacks of the thread have run. -/
def marksAllDone (ths : List GreenThread) : Bool :=
  ths.all (fun th => th.callbacks + 1 ≤ th.ran)

/-- The second wait loop of `ThreadGroupManager.stop`:

```
while not all(links_done.values()):
    eventlet.sleep()
```

`step` is one cooperative yield (`eventlet.sleep()`): the scheduler may run
any number of pending callbacks, advancing the threads' states.  The loop
re-checks the markers after each yield; `fuel` bounds the number of checks
(the source loop is unbounded).  `none` means the fuel ran out before the
markers were all set. -/
def stop_wait (step : List GreenThread → List GreenThread) :
    Nat → List GreenThread → Option (List GreenThread)
  | 0, _ => none
  | fuel + 1, ths =>
    if marksAllDone ths then some ths
    else stop_wait step fuel (step ths)

/-- C8: if every cooperative yield preserves the collaborator contract,
then whenever the second wait loop of `stop` returns, every thread in the
group has exited and every one of its registered completion callbacks —
all `callbacks` links registered before the marker, plus the marker itself
— has executed; the loop cannot return while any completion callback is
still pending. -/
theorem C8_stop_waits_for_callbacks
    (step : List GreenThread → List GreenThread) (fuel : Nat)
    (s sf : List GreenThread)
    (hstep : ∀ t, (∀ th ∈ t, th.wf) → ∀ th ∈ step t, th.wf)
    (hs : ∀ th ∈ s, th.wf)
    (h : stop_wait step fuel s = some sf) :
    ∀ th ∈ sf, th.exited = true ∧ th.ran = th.callbacks + 1 := by
  induction fuel generalizing s with
  | zero => simp [stop_wait] at h
  | succ fuel ih =>
    unfold stop_wait at h
    by_cases hdone : marksAllDone s = true
    · rw [if_pos hdone] at h
      obtain rfl : s = sf := by simpa using h
      intro th hth
      obtain ⟨hle, hex⟩ := hs th hth
      have hge : th.callbacks + 1 ≤ th.ran := by
        have hall := hdone
        simp only [marksAllDone, List.all_eq_true, decide_eq_true_eq] at hall
        exact hall th hth
      have hran : th.ran = th.callbacks + 1 := le_antisymm hle hge
      exact ⟨hex (by omega), hran⟩
    · rw [if_neg (by simpa using hdone)] at h
      exact ih (step s) (hstep s hs) h

/-- Concrete state for the C8 witness: one thread that has exited with its
single completion callback and the marker both executed. -/
def thW : GreenThread := GreenThread.mk 1 2 true

/-- Witness for C8: on the singleton state `[thW]` with the identity yield,
the loop exits immediately and the theorem yields that `thW` has exited
with all its callbacks executed. -/
theorem C8_stop_waits_for_callbacks_witness :
    thW.exited = true ∧ thW.ran = thW.callbacks + 1 :=
  C8_stop_waits_for_callbacks (fun t => t) 1 [thW] [thW]
    (fun _ h => h)
    (by
      intro th hth
      rw [List.mem_singleton] at hth
      subst hth
      exact ⟨by decide, fun _ => rfl⟩)
    rfl thW (List.mem_singleton.mpr rfl)

/-- Modelled from the spec: `ThreadGroup.add_timer(interval, func, args)`
of `senlin.openstack.common.threadgroup` (not under `src/`) "registers a
periodic task firing every `interval` until the group stops".  The state
kept here is the list of periods of the registered timers; registering
appends the period passed in its first argument. -/
def group_add_timer (timers : List Nat) (interval : Nat) : List Nat :=
  timers ++ [interval]

/-- `ThreadGroupManager.add_timer(interval, func, args)`: the body calls
`self.group.add_timer(cfg.CONF.periodic_interval, func, *args, **kwargs)` —
it passes the configured `periodic_interval` as the period, ignoring its
own `interval` argument. -/
def tgm_add_timer (periodic_interval : Nat) (timers : List Nat)
    (interval : Nat) : List Nat :=
  group_add_timer timers periodic_interval

/-- C9 counterexample: with `periodic_interval = 60`, a caller asking for a
timer every `5` gets a timer whose period is `60`, not `5` — the period of
the registered timer is not the interval argument passed by the caller. -/
theorem C9_add_timer_counterexample :
    tgm_add_timer 60 [] 5 ≠ [5] := by
  decide

/-- C9 amended: `ThreadGroupManager.add_timer` registers a periodic task
whose period is the configured `cfg.CONF.periodic_interval`, whatever
interval the caller passed: the `interval` argument is ignored. -/
theorem C9_add_timer_uses_config (periodic_interval interval : Nat)
    (timers : List Nat) :
    tgm_add_timer periodic_interval timers interval =
      timers ++ [periodic_interval] := by
  simp [tgm_add_timer, group_add_timer]

end Scheduler
